import Mathlib

/-!
# Verification of the elastic-rag resilience layer

Shallow embedding of `src/resilience/circuit_breaker.py` and
`src/resilience/health_probes.py`, together with proofs of the
behavioural properties claimed by the specification.

Modelling conventions:
* wall-clock instants (`datetime.now()`) are explicit rational-number
  parameters threaded through the operations; `timedelta.total_seconds()`
  becomes subtraction on `ℚ`;
* the wrapped operation's outcome is an explicit `Except E A` argument:
  `Except.ok a` models a normal return of `a`, `Except.error e` models the
  operation raising exception `e`;
* `datetime.utcnow().isoformat()` timestamp fields in probe result
  dictionaries are pure wall-clock reads with no behavioural content and
  are omitted from the result records;
* python exceptions inside the health probes are modelled by `Except`
  computations, with `try/except` translated to an explicit match on the
  body's outcome.
-/

namespace ElasticRag

/-! ## Circuit breaker state machine (`circuit_breaker.py`) -/

/-- The `CircuitState` enum: CLOSED, OPEN, HALF_OPEN. -/
inductive CircuitState where
  | closed
  | opened
  | halfOpen
deriving DecidableEq, Repr

/-- The enum member string payload, `CircuitState.value`: the string payload of each enum member. -/
def CircuitState.value : CircuitState → String
  | .closed => "closed"
  | .opened => "open"
  | .halfOpen => "half_open"

/-- The configuration read from `settings.circuit_breaker` in
`CircuitBreaker.__init__`: `failure_threshold`, `timeout_seconds` and
`half_open_max_calls`.  All three are validated positive integers in
`CircuitBreakerSettings`; the timeout is compared against fractional
elapsed seconds, so it is carried as a rational. -/
structure Config where
  failureThreshold : ℕ
  timeout : ℚ
  halfOpenMaxCalls : ℕ
deriving DecidableEq, Repr

/-- The mutable fields of a `CircuitBreaker` instance: `state`,
`failure_count`, `last_failure_time` and `half_open_calls`. -/
structure BreakerState where
  state : CircuitState
  failureCount : ℕ
  lastFailureTime : Option ℚ
  halfOpenCalls : ℕ
deriving DecidableEq, Repr

namespace CircuitBreaker

/-- The state set up by `CircuitBreaker.__init__`: CLOSED, zero failure
count, no last failure, zero half-open calls. -/
def initState : BreakerState :=
  { state := .closed, failureCount := 0, lastFailureTime := none, halfOpenCalls := 0 }

/-- Outcome of one `CircuitBreaker.call`: either one of the two
`CircuitBreakerError` rejections (the OPEN rejection carrying the
remaining cooldown estimate), or the wrapped operation's own outcome
surfaced to the caller (`success` = its return value, `failure` = the
re-raised exception). -/
inductive CallResult (E A : Type) where
  | rejected (remaining : ℚ)
  | halfOpenExceeded
  | success (a : A)
  | failure (e : E)
deriving DecidableEq, Repr

/-- Embedding of `CircuitBreaker._should_attempt_reset`: true when no failure has been
recorded, or when at least `timeout` seconds have elapsed since
`last_failure_time`. -/
def shouldAttemptReset (cfg : Config) (s : BreakerState) (now : ℚ) : Bool :=
  match s.lastFailureTime with
  | none => true
  | some t => decide (cfg.timeout ≤ now - t)

/-- Embedding of `CircuitBreaker._on_success`: in HALF_OPEN, count the success and close
the circuit (clearing all counters and the failure timestamp) once
`half_open_calls` reaches `half_open_max_calls`; in CLOSED, reset the
failure count. -/
def onSuccess (cfg : Config) (s : BreakerState) : BreakerState :=
  match s.state with
  | .halfOpen =>
      let s1 := { s with halfOpenCalls := s.halfOpenCalls + 1 }
      if cfg.halfOpenMaxCalls ≤ s1.halfOpenCalls then
        { s1 with state := .closed, failureCount := 0, halfOpenCalls := 0,
                  lastFailureTime := none }
      else s1
  | .closed => { s with failureCount := 0 }
  | .opened => s

/-- Embedding of `CircuitBreaker._on_failure`: increment `failure_count` and record the
failure time; in HALF_OPEN, reopen immediately (resetting
`half_open_calls`); in CLOSED, open once the count reaches
`failure_threshold`. -/
def onFailure (cfg : Config) (s : BreakerState) (now : ℚ) : BreakerState :=
  let s1 := { s with failureCount := s.failureCount + 1, lastFailureTime := some now }
  match s1.state with
  | .halfOpen => { s1 with state := .opened, halfOpenCalls := 0 }
  | .closed =>
      if cfg.failureThreshold ≤ s1.failureCount then { s1 with state := .opened } else s1
  | .opened => s1

/-- The tail of `CircuitBreaker.call` after the OPEN gate: the HALF_OPEN
quota check, then execution of the wrapped operation with the outcome
routed through `_on_success` / `_on_failure`. -/
def callAdmitted {E A : Type} (cfg : Config) (s : BreakerState) (now : ℚ)
    (outcome : Except E A) : CallResult E A × BreakerState :=
  if s.state = .halfOpen ∧ cfg.halfOpenMaxCalls ≤ s.halfOpenCalls then
    (.halfOpenExceeded, s)
  else
    match outcome with
    | .ok a => (.success a, onSuccess cfg s)
    | .error e => (.failure e, onFailure cfg s now)

/-- Embedding of `CircuitBreaker.call`: when OPEN, either move to HALF_OPEN (resetting
`half_open_calls`) if the cooldown has elapsed, or reject with the
remaining cooldown estimate `max 0 (timeout - elapsed)`; an admitted call
then runs the quota check and the wrapped operation. -/
def call {E A : Type} (cfg : Config) (s : BreakerState) (now : ℚ)
    (outcome : Except E A) : CallResult E A × BreakerState :=
  if s.state = .opened then
    if shouldAttemptReset cfg s now then
      callAdmitted cfg { s with state := .halfOpen, halfOpenCalls := 0 } now outcome
    else
      let elapsed : ℚ :=
        match s.lastFailureTime with
        | some t => now - t
        | none => 0
      (.rejected (max 0 (cfg.timeout - elapsed)), s)
  else
    callAdmitted cfg s now outcome

/-- The record produced by `CircuitBreaker.get_state` (the
`last_failure` ISO string is represented by the timestamp itself). -/
structure StateInfo where
  state : String
  failureCount : ℕ
  lastFailure : Option ℚ
  halfOpenCalls : ℕ
deriving DecidableEq, Repr

/-- Embedding of `CircuitBreaker.get_state`. -/
def getState (s : BreakerState) : StateInfo :=
  { state := s.state.value
    failureCount := s.failureCount
    lastFailure := s.lastFailureTime
    halfOpenCalls := s.halfOpenCalls }

/-- Embedding of `CircuitBreaker.reset`: manual reset to the pristine CLOSED state. -/
def reset (_s : BreakerState) : BreakerState :=
  { state := .closed, failureCount := 0, lastFailureTime := none, halfOpenCalls := 0 }

/-- A breaker state reachable, in sequential execution, from the initial
state of `__init__` under any interleaving of `call` (at arbitrary times
and with arbitrary operation outcomes) and manual `reset`.  The state
update of `call` depends on the outcome only through success/failure, so
`Except Unit Unit` outcomes generate all reachable states. -/
inductive Reachable (cfg : Config) : BreakerState → Prop where
  | init : Reachable cfg initState
  | step (s : BreakerState) (now : ℚ) (outcome : Except Unit Unit) :
      Reachable cfg s → Reachable cfg (call cfg s now outcome).2
  | manualReset (s : BreakerState) : Reachable cfg s → Reachable cfg (reset s)

/-- The state invariant maintained by every sequential run of the
breaker: CLOSED keeps `half_open_calls` at 0, and the failure-derived
states carry at least `failure_threshold` consecutive failures and a
recorded failure time; in HALF_OPEN the trial counter is below
`max 1 half_open_max_calls`. -/
def Invariant (cfg : Config) (s : BreakerState) : Prop :=
  (s.state = .closed → s.halfOpenCalls = 0)
  ∧ (s.state = .opened → cfg.failureThreshold ≤ s.failureCount ∧ s.lastFailureTime ≠ none)
  ∧ (s.state = .halfOpen → cfg.failureThreshold ≤ s.failureCount ∧ s.lastFailureTime ≠ none
      ∧ s.halfOpenCalls < max 1 cfg.halfOpenMaxCalls)

/-- Iterating `n` consecutive failing `call`s (the wrapped operation raising on
each), all at time `now`, starting from `s`. -/
def failCalls (cfg : Config) (now : ℚ) : ℕ → BreakerState → BreakerState
  | 0, s => s
  | n + 1, s =>
      failCalls cfg now n (call cfg s now (Except.error () : Except Unit Unit)).2

/-- Iterating `n` consecutive successful `call`s, all at time `now`, starting
from `s`. -/
def succCalls (cfg : Config) (now : ℚ) : ℕ → BreakerState → BreakerState
  | 0, s => s
  | n + 1, s =>
      succCalls cfg now n (call cfg s now (Except.ok () : Except Unit Unit)).2

end CircuitBreaker

/-! ## Health probes (`health_probes.py`) -/

namespace HealthProbes

/-- Observable behaviour of the Elasticsearch dependency during one
`_check_elasticsearch` call: either the client raises an exception
(connection failure, timeout, ...), or `cluster.health()` returns a
cluster status string. -/
inductive EsBehavior where
  | raises (msg : String)
  | health (clusterStatus : String)
deriving DecidableEq, Repr

/-- Observable behaviour of the LM endpoint during one `_check_lmstudio`
call: an `httpx.TimeoutException`, any other exception, or an HTTP
response with a status code. -/
inductive LmBehavior where
  | timeout
  | raises (msg : String)
  | responds (statusCode : ℕ)
deriving DecidableEq, Repr

/-- Python exceptions flowing through the health-probe module: the
`httpx.TimeoutException`, or any other exception carrying a message. -/
inductive PyError where
  | timeoutExc
  | otherExc (msg : String)
deriving DecidableEq, Repr

/-- The `try` body of `_check_elasticsearch`: connect, read
`cluster.health()`, and accept a `green` or `yellow` status; any
exception from the client propagates out of the body. -/
def checkElasticsearchBody (b : EsBehavior) : Except PyError Bool :=
  match b with
  | .raises m => .error (.otherExc m)
  | .health st => .ok (["green", "yellow"].contains st)

/-- Embedding of `HealthProbes._check_elasticsearch`: the body wrapped in
`except Exception: return False`. -/
def checkElasticsearchRun (b : EsBehavior) : Except PyError Bool :=
  match checkElasticsearchBody b with
  | .ok v => .ok v
  | .error _ => .ok false

/-- The boolean `_check_elasticsearch` hands to its callers (total since
the catch-all handler converts every body exception to `False`). -/
def checkElasticsearch (b : EsBehavior) : Bool :=
  match checkElasticsearchRun b with
  | .ok v => v
  | .error _ => false

/-- The `try` body of `_check_lmstudio`: GET `{base_url}/models` and
report success exactly when the status code is 200. -/
def checkLmstudioBody (b : LmBehavior) : Except PyError Bool :=
  match b with
  | .timeout => .error .timeoutExc
  | .raises m => .error (.otherExc m)
  | .responds code => .ok (code = 200)

/-- Embedding of `HealthProbes._check_lmstudio`: the body wrapped in
`except httpx.TimeoutException: return False` and
`except Exception: return False`. -/
def checkLmstudioRun (b : LmBehavior) : Except PyError Bool :=
  match checkLmstudioBody b with
  | .ok v => .ok v
  | .error .timeoutExc => .ok false
  | .error (.otherExc _) => .ok false

/-- The boolean `_check_lmstudio` hands to its callers. -/
def checkLmstudio (b : LmBehavior) : Bool :=
  match checkLmstudioRun b with
  | .ok v => v
  | .error _ => false

/-- One entry of the `checks` dictionary built by `readiness`. -/
structure CheckEntry where
  status : String
  required : Bool
deriving DecidableEq, Repr

/-- The dictionary returned by `readiness` (timestamp omitted, see the
module header). -/
structure ReadinessReport where
  status : String
  probe : String
  checks : List (String × CheckEntry)
deriving DecidableEq, Repr

/-- The body of `HealthProbes.readiness` as a function of the two check
outcomes: fold each dependency's health into `overall_healthy` with a
logical AND and record its individual status (marked `required`). -/
def readiness (esHealthy lmHealthy : Bool) : ReadinessReport :=
  let overallHealthy := true
  let esEntry : CheckEntry :=
    { status := if esHealthy then "healthy" else "unhealthy", required := true }
  let overallHealthy := overallHealthy && esHealthy
  let lmEntry : CheckEntry :=
    { status := if lmHealthy then "healthy" else "unhealthy", required := true }
  let overallHealthy := overallHealthy && lmHealthy
  { status := if overallHealthy then "healthy" else "unhealthy"
    probe := "readiness"
    checks := [("elasticsearch", esEntry), ("lmstudio", lmEntry)] }

/-- Embedding of `HealthProbes.readiness` run against dependency behaviours, with any
uncaught python exception surfacing as an `Except.error`.  The only
potentially-raising steps are the two dependency checks, both of which
catch internally. -/
def readinessRun (esb : EsBehavior) (lmb : LmBehavior) :
    Except PyError ReadinessReport := do
  let esHealthy ← checkElasticsearchRun esb
  let lmHealthy ← checkLmstudioRun lmb
  pure (readiness esHealthy lmHealthy)

/-- The dictionary returned by `liveness` / `startup` (timestamp
omitted); `error` is present only on an unhealthy `startup`. -/
structure ProbeReport where
  status : String
  probe : String
  error : Option String
deriving DecidableEq, Repr

/-- Embedding of `HealthProbes.liveness`: unconditionally healthy; contains no
raising step at all. -/
def livenessRun : Except PyError ProbeReport :=
  .ok { status := "healthy", probe := "liveness", error := none }

/-- The mutable state of a `HealthProbes` instance: the
`startup_complete` latch (set to `False` by `__init__`). -/
structure ProbeState where
  startupComplete : Bool
deriving DecidableEq, Repr

/-- Embedding of `HealthProbes.startup` against an Elasticsearch behaviour: when the
latch is unset, run the one-time check inside `try/except` (an
inaccessible Elasticsearch raises `RuntimeError("Elasticsearch not
accessible")`, caught and returned as an unhealthy report); a set latch
short-circuits.  Returns the report, the updated state, and whether
`_check_elasticsearch` was invoked. -/
def startupRun (esb : EsBehavior) (ps : ProbeState) :
    Except PyError (ProbeReport × ProbeState × Bool) :=
  if ps.startupComplete then
    .ok ({ status := "healthy", probe := "startup", error := none }, ps, false)
  else
    let attempt : Except PyError ProbeState := do
      let ok ← checkElasticsearchRun esb
      if ok then
        pure { startupComplete := true }
      else
        throw (.otherExc "Elasticsearch not accessible")
    match attempt with
    | .error e =>
        let msg := match e with
          | .timeoutExc => "timeout"
          | .otherExc m => m
        .ok ({ status := "unhealthy", probe := "startup", error := some msg }, ps, true)
    | .ok ps2 =>
        .ok ({ status := "healthy", probe := "startup", error := none }, ps2, true)

/-- The probe `startup` as the total function it is (its run never raises). -/
def startup (esb : EsBehavior) (ps : ProbeState) : ProbeReport × ProbeState × Bool :=
  match startupRun esb ps with
  | .ok r => r
  | .error _ => ({ status := "unhealthy", probe := "startup", error := none }, ps, true)

end HealthProbes

/-! ## Circuit breaker lemmas -/

namespace CircuitBreaker

theorem invariant_call {E A : Type} (cfg : Config) (s : BreakerState) (now : ℚ)
    (outcome : Except E A) (h : Invariant cfg s) :
    Invariant cfg (call cfg s now outcome).2 := by
  obtain ⟨h1, h2, h3⟩ := h
  rcases s with ⟨st, fc, lft, hoc⟩
  cases st with
  | closed =>
      have h0 : hoc = 0 := h1 rfl
      subst h0
      cases outcome <;>
        simp only [call, callAdmitted, onSuccess, onFailure, Invariant] <;>
        split_ifs <;> simp_all <;> omega
  | opened =>
      obtain ⟨ha, hb⟩ := h2 rfl
      cases outcome <;>
        simp only [call, callAdmitted, onSuccess, onFailure, Invariant] <;>
        split_ifs <;> simp_all <;> omega
  | halfOpen =>
      obtain ⟨ha, hb, hc⟩ := h3 rfl
      cases outcome <;>
        simp only [call, callAdmitted, onSuccess, onFailure, Invariant] <;>
        split_ifs <;> simp_all <;> omega

theorem invariant_reset (cfg : Config) (s : BreakerState) :
    Invariant cfg (reset s) := by
  simp [Invariant, reset]

theorem invariant_init (cfg : Config) : Invariant cfg initState := by
  simp [Invariant, initState]

/-- Every sequentially reachable breaker state satisfies the invariant. -/
theorem reachable_invariant {cfg : Config} {s : BreakerState}
    (h : Reachable cfg s) : Invariant cfg s := by
  induction h with
  | init => exact invariant_init cfg
  | step s now outcome _ ih => exact invariant_call cfg s now outcome ih
  | manualReset s _ _ => exact invariant_reset cfg s

/-- A failing call in the CLOSED state below the threshold: the failure
is counted and timestamped, the breaker stays CLOSED. -/
theorem call_closed_fail_stay (cfg : Config) (fc : ℕ) (lft : Option ℚ) (now : ℚ)
    (hlt : fc + 1 < cfg.failureThreshold) :
    (call cfg ⟨.closed, fc, lft, 0⟩ now (Except.error () : Except Unit Unit)).2
      = ⟨.closed, fc + 1, some now, 0⟩ := by
  simp only [call, callAdmitted, onFailure]
  split_ifs <;> simp_all <;> omega

/-- A failing call in the CLOSED state that reaches the threshold opens
the breaker. -/
theorem call_closed_fail_open (cfg : Config) (fc : ℕ) (lft : Option ℚ) (now : ℚ)
    (hge : cfg.failureThreshold ≤ fc + 1) :
    (call cfg ⟨.closed, fc, lft, 0⟩ now (Except.error () : Except Unit Unit)).2
      = ⟨.opened, fc + 1, some now, 0⟩ := by
  simp only [call, callAdmitted, onFailure]
  split_ifs <;> simp_all

/-- Iterated failures below the threshold accumulate in `failure_count`
while the breaker stays CLOSED. -/
theorem failCalls_closed (cfg : Config) (now : ℚ) :
    ∀ (k fc : ℕ) (lft : Option ℚ), fc + k < cfg.failureThreshold →
      failCalls cfg now k ⟨.closed, fc, lft, 0⟩
        = ⟨.closed, fc + k, if k = 0 then lft else some now, 0⟩ := by
  intro k
  induction k with
  | zero => intro fc lft _; simp [failCalls]
  | succ n ih =>
      intro fc lft hlt
      have h1 : fc + 1 < cfg.failureThreshold := by omega
      rw [failCalls, call_closed_fail_stay cfg fc lft now h1,
        ih (fc + 1) (some now) (by omega)]
      rcases Nat.eq_zero_or_pos n with h | h <;> simp [h] <;> omega

/-- A successful call in the CLOSED state resets the failure count and
changes nothing else. -/
theorem call_closed_success {E A : Type} (cfg : Config) (fc : ℕ) (lft : Option ℚ)
    (hoc : ℕ) (now : ℚ) (a : A) :
    (call cfg ⟨.closed, fc, lft, hoc⟩ now (Except.ok a : Except E A)).2
      = ⟨.closed, 0, lft, hoc⟩ := by
  simp [call, callAdmitted, onSuccess]

/-! ## Claim theorems: circuit breaker -/

/-- C1: while OPEN with the last failure at time `t`, a call at `now` with
`now - t < timeout` is rejected without invoking the wrapped operation
(the result does not depend on the operation's outcome), carries the
remaining cooldown `max 0 (timeout - (now - t))`, and leaves the state
untouched; with `timeout ≤ now - t` (equality included) the breaker moves
to HALF_OPEN with `half_open_calls` reset to 0 and the operation runs as
a probe, its outcome surfacing through the success/failure handlers
applied to that probe state. -/
theorem open_gate_cooldown {E A : Type} (cfg : Config) (s : BreakerState) (t now : ℚ)
    (hs : s.state = .opened) (ht : s.lastFailureTime = some t)
    (hmax : 1 ≤ cfg.halfOpenMaxCalls) :
    (now - t < cfg.timeout →
      ∀ (outcome : Except E A),
        call cfg s now outcome
          = (CallResult.rejected (max 0 (cfg.timeout - (now - t))), s))
    ∧ (cfg.timeout ≤ now - t →
      (∀ (a : A), call cfg s now (Except.ok a : Except E A)
          = (CallResult.success a,
             onSuccess cfg { s with state := .halfOpen, halfOpenCalls := 0 }))
      ∧ (∀ (e : E), call cfg s now (Except.error e : Except E A)
          = (CallResult.failure e,
             onFailure cfg { s with state := .halfOpen, halfOpenCalls := 0 } now))) := by
  constructor
  · intro hlt outcome
    have hfalse : shouldAttemptReset cfg s now = false := by
      simp [shouldAttemptReset, ht]
      exact hlt
    simp [call, hs, hfalse, ht]
  · intro hge
    have htrue : shouldAttemptReset cfg s now = true := by
      simp [shouldAttemptReset, ht]
      exact hge
    have hguard : ¬ (cfg.halfOpenMaxCalls ≤ 0) := by omega
    constructor <;> intro x <;> simp [call, hs, htrue, callAdmitted, hguard]

/-- Witness for C1 at a concrete input: threshold 5, timeout 60 s,
half-open quota 3; failure recorded at t = 0, call at t = 30. -/
theorem open_gate_cooldown_witness :
    call (⟨5, 60, 3⟩ : Config) (⟨.opened, 5, some 0, 0⟩ : BreakerState) 30
        (Except.error "boom" : Except String Unit)
      = (CallResult.rejected (max 0 ((60 : ℚ) - (30 - 0))),
         (⟨.opened, 5, some 0, 0⟩ : BreakerState)) :=
  (open_gate_cooldown (⟨5, 60, 3⟩ : Config) (⟨.opened, 5, some 0, 0⟩ : BreakerState)
      0 30 rfl rfl (by decide)).1
    (by with_unfolding_all decide) (Except.error "boom")

/-- C3: a call the breaker admits (CLOSED, or HALF_OPEN with quota
remaining) whose wrapped operation raises `e` records the failure — the
consecutive-failure count goes up by one, the failure time is set to the
call time, and a HALF_OPEN breaker reopens with `half_open_calls` reset
to 0 — and surfaces exactly `e` to the caller, never a
`CircuitBreakerError` rejection. -/
theorem admitted_failure_reraised {E A : Type} (cfg : Config) (s : BreakerState)
    (now : ℚ) (e : E)
    (hadm : s.state = .closed
      ∨ (s.state = .halfOpen ∧ s.halfOpenCalls < cfg.halfOpenMaxCalls)) :
    (call cfg s now (Except.error e : Except E A)).1 = CallResult.failure e
    ∧ (call cfg s now (Except.error e : Except E A)).2.failureCount
        = s.failureCount + 1
    ∧ (call cfg s now (Except.error e : Except E A)).2.lastFailureTime = some now
    ∧ (s.state = .halfOpen →
        (call cfg s now (Except.error e : Except E A)).2.state = .opened
        ∧ (call cfg s now (Except.error e : Except E A)).2.halfOpenCalls = 0) := by
  obtain ⟨st, fc, lft, hoc⟩ := s
  rcases hadm with hc | ⟨hh, hlt⟩
  · simp only at hc
    subst hc
    simp only [call, callAdmitted, onFailure]
    split_ifs <;> simp_all
  · simp only at hh
    subst hh
    dsimp only at hlt
    have hguard : ¬ (cfg.halfOpenMaxCalls ≤ hoc) := by omega
    simp only [call, callAdmitted, onFailure]
    split_ifs <;> simp_all

/-- Witness for C3 at a concrete input: a HALF_OPEN breaker with one of
three allowed trial calls used, whose probe raises `"downstream"`. -/
theorem admitted_failure_reraised_witness :
    (call (⟨5, 60, 3⟩ : Config) (⟨.halfOpen, 5, some 0, 1⟩ : BreakerState) 70
        (Except.error "downstream" : Except String Unit)).1
      = CallResult.failure "downstream"
    ∧ (call (⟨5, 60, 3⟩ : Config) (⟨.halfOpen, 5, some 0, 1⟩ : BreakerState) 70
        (Except.error "downstream" : Except String Unit)).2.failureCount = 5 + 1
    ∧ (call (⟨5, 60, 3⟩ : Config) (⟨.halfOpen, 5, some 0, 1⟩ : BreakerState) 70
        (Except.error "downstream" : Except String Unit)).2.lastFailureTime = some 70
    ∧ ((⟨.halfOpen, 5, some 0, 1⟩ : BreakerState).state = .halfOpen →
        (call (⟨5, 60, 3⟩ : Config) (⟨.halfOpen, 5, some 0, 1⟩ : BreakerState) 70
          (Except.error "downstream" : Except String Unit)).2.state = .opened
        ∧ (call (⟨5, 60, 3⟩ : Config) (⟨.halfOpen, 5, some 0, 1⟩ : BreakerState) 70
          (Except.error "downstream" : Except String Unit)).2.halfOpenCalls = 0) :=
  admitted_failure_reraised (⟨5, 60, 3⟩ : Config)
    (⟨.halfOpen, 5, some 0, 1⟩ : BreakerState) 70 "downstream"
    (Or.inr ⟨rfl, by decide⟩)

/-- Peeling the last call off an iterated failure run. -/
theorem failCalls_succ_back (cfg : Config) (now : ℚ) :
    ∀ (n : ℕ) (s : BreakerState),
      failCalls cfg now (n + 1) s
        = (call cfg (failCalls cfg now n s) now
            (Except.error () : Except Unit Unit)).2 := by
  intro n
  induction n with
  | zero => intro s; rfl
  | succ m ih =>
      intro s
      rw [failCalls, ih, failCalls]

/-- C2: from the pristine breaker, `failure_threshold - 1` consecutive
failing calls leave it CLOSED with the failure count at
`failure_threshold - 1`; the `failure_threshold`-th consecutive failure
opens it; and one successful call interposed after
`failure_threshold - 1` failures (still CLOSED) resets the failure count
to 0 — failures count consecutively, not cumulatively. -/
theorem consecutive_failure_counting (cfg : Config) (now : ℚ)
    (h1 : 1 ≤ cfg.failureThreshold) :
    (failCalls cfg now (cfg.failureThreshold - 1) initState).state = .closed
    ∧ (failCalls cfg now (cfg.failureThreshold - 1) initState).failureCount
        = cfg.failureThreshold - 1
    ∧ (failCalls cfg now cfg.failureThreshold initState).state = .opened
    ∧ (call cfg (failCalls cfg now (cfg.failureThreshold - 1) initState) now
        (Except.ok () : Except Unit Unit)).2.failureCount = 0
    ∧ (call cfg (failCalls cfg now (cfg.failureThreshold - 1) initState) now
        (Except.ok () : Except Unit Unit)).2.state = .closed := by
  have hstart : failCalls cfg now (cfg.failureThreshold - 1) initState
      = ⟨.closed, cfg.failureThreshold - 1,
         if cfg.failureThreshold - 1 = 0 then none else some now, 0⟩ := by
    have := failCalls_closed cfg now (cfg.failureThreshold - 1) 0 none (by omega)
    simpa [initState] using this
  have hopen : failCalls cfg now cfg.failureThreshold initState
      = ⟨.opened, cfg.failureThreshold, some now, 0⟩ := by
    have hsplit : cfg.failureThreshold = (cfg.failureThreshold - 1) + 1 := by omega
    rw [hsplit, failCalls_succ_back, hstart,
      call_closed_fail_open cfg (cfg.failureThreshold - 1) _ now (by omega)]
  refine ⟨by rw [hstart], by rw [hstart], by rw [hopen], ?_, ?_⟩ <;>
    rw [hstart, call_closed_success]

/-- Witness for C2 at a concrete input: threshold 3 at time 42. -/
theorem consecutive_failure_counting_witness :
    (failCalls (⟨3, 60, 2⟩ : Config) 42 (3 - 1) initState).state = .closed
    ∧ (failCalls (⟨3, 60, 2⟩ : Config) 42 (3 - 1) initState).failureCount = 3 - 1
    ∧ (failCalls (⟨3, 60, 2⟩ : Config) 42 3 initState).state = .opened
    ∧ (call (⟨3, 60, 2⟩ : Config) (failCalls (⟨3, 60, 2⟩ : Config) 42 (3 - 1) initState)
        42 (Except.ok () : Except Unit Unit)).2.failureCount = 0
    ∧ (call (⟨3, 60, 2⟩ : Config) (failCalls (⟨3, 60, 2⟩ : Config) 42 (3 - 1) initState)
        42 (Except.ok () : Except Unit Unit)).2.state = .closed :=
  consecutive_failure_counting (⟨3, 60, 2⟩ : Config) 42 (by decide)

/-- C5: every breaker state reachable from the initial CLOSED state under
sequential `call`s and `reset`s satisfies: CLOSED implies
`half_open_calls = 0`, and OPEN implies
`failure_count ≥ failure_threshold`. -/
theorem reachable_closed_open_invariant (cfg : Config) (s : BreakerState)
    (h : Reachable cfg s) :
    (s.state = .closed → s.halfOpenCalls = 0)
    ∧ (s.state = .opened → cfg.failureThreshold ≤ s.failureCount) := by
  obtain ⟨h1, h2, _⟩ := reachable_invariant h
  exact ⟨h1, fun hs => (h2 hs).1⟩

/-- Witness for C5 at a concrete input: the state after one failing call
from the initial state with threshold 1 (an OPEN state). -/
theorem reachable_closed_open_invariant_witness :
    ((call (⟨1, 60, 2⟩ : Config) initState 5
        (Except.error () : Except Unit Unit)).2.state = .closed →
      (call (⟨1, 60, 2⟩ : Config) initState 5
        (Except.error () : Except Unit Unit)).2.halfOpenCalls = 0)
    ∧ ((call (⟨1, 60, 2⟩ : Config) initState 5
        (Except.error () : Except Unit Unit)).2.state = .opened →
      (1 : ℕ) ≤ (call (⟨1, 60, 2⟩ : Config) initState 5
        (Except.error () : Except Unit Unit)).2.failureCount) :=
  reachable_closed_open_invariant (⟨1, 60, 2⟩ : Config) _
    (Reachable.step initState 5 (Except.error ()) Reachable.init)

/-- C4 counterexample: the claim that `state == OPEN` holds only while
the cooldown has not yet elapsed is false.  Concretely, with threshold 1
and timeout 10 s, one failing call at time 0 opens the breaker, and at
time 100 — long after the cooldown — `get_state` still reports `"open"`:
being OPEN does not imply `now - last_failure < timeout`. -/
theorem open_iff_cooldown_counterexample :
    ¬ ((getState (call (⟨1, 10, 1⟩ : Config) initState 0
          (Except.error () : Except Unit Unit)).2).state = "open"
        → (100 : ℚ) - 0 < (10 : ℚ)) := by
  intro h
  have := h (by with_unfolding_all decide)
  revert this
  with_unfolding_all decide

/-- C4 (amended): `state == OPEN` only arises from `failure_count`
reaching `failure_threshold` (while CLOSED, or via a failed HALF_OPEN
trial, both of which record a failure time) — but the breaker leaves
OPEN lazily: the state field stays OPEN after the cooldown elapses until
the next `call`, which once `timeout ≤ now - last_failure` is never
rejected with the breaker-open error. -/
theorem open_state_characterization (cfg : Config) (s : BreakerState)
    (h : Reachable cfg s) :
    (s.state = .opened →
      cfg.failureThreshold ≤ s.failureCount ∧ s.lastFailureTime ≠ none)
    ∧ (∀ (t now : ℚ), s.state = .opened → s.lastFailureTime = some t →
        cfg.timeout ≤ now - t →
        ∀ (outcome : Except Unit Unit) (r : ℚ),
          (call cfg s now outcome).1 ≠ CallResult.rejected r)
    ∧ (∀ (t now : ℚ), s.state = .opened → s.lastFailureTime = some t →
        now - t < cfg.timeout →
        ∀ (outcome : Except Unit Unit),
          (call cfg s now outcome).2 = s
          ∧ (call cfg s now outcome).1
              = CallResult.rejected (max 0 (cfg.timeout - (now - t)))) := by
  refine ⟨fun hs => (reachable_invariant h).2.1 hs, ?_, ?_⟩
  · intro t now hs ht hge outcome r
    have htrue : shouldAttemptReset cfg s now = true := by
      simp [shouldAttemptReset, ht]
      exact hge
    cases outcome <;>
      simp [call, hs, htrue, callAdmitted] <;>
      split_ifs <;> simp
  · intro t now hs ht hlt outcome
    have hfalse : shouldAttemptReset cfg s now = false := by
      simp [shouldAttemptReset, ht]
      exact hlt
    constructor <;> simp [call, hs, hfalse, ht]

/-- Witness for the amended C4 at a concrete input: the OPEN state
reached by one failing call at time 0 under threshold 1; a call at time
100 (cooldown elapsed) is not rejected. -/
theorem open_state_characterization_witness :
    (call (⟨1, 10, 1⟩ : Config)
        (call (⟨1, 10, 1⟩ : Config) initState 0
          (Except.error () : Except Unit Unit)).2 100
        (Except.ok () : Except Unit Unit)).1
      ≠ CallResult.rejected 5 :=
  (open_state_characterization (⟨1, 10, 1⟩ : Config) _
      (Reachable.step initState 0 (Except.error ()) Reachable.init)).2.1
    0 100 (by with_unfolding_all decide) (by with_unfolding_all decide)
    (by with_unfolding_all decide) (Except.ok ()) 5

/-- C10: with the configured `half_open_max_calls ≥ 1`, every
sequentially reachable state satisfies `state == HALF_OPEN →
half_open_calls < half_open_max_calls` (the success handler closes the
breaker the moment the counter reaches the quota), so the
"HALF_OPEN max calls exceeded" rejection branch of `call` can never fire
in a sequential run. -/
theorem halfOpen_quota_never_exceeded (cfg : Config) (s : BreakerState)
    (hmax : 1 ≤ cfg.halfOpenMaxCalls) (h : Reachable cfg s) :
    (s.state = .halfOpen → s.halfOpenCalls < cfg.halfOpenMaxCalls)
    ∧ (∀ (now : ℚ) (outcome : Except Unit Unit),
        (call cfg s now outcome).1 ≠ CallResult.halfOpenExceeded) := by
  obtain ⟨h1, h2, h3⟩ := reachable_invariant h
  have hbound : s.state = .halfOpen → s.halfOpenCalls < cfg.halfOpenMaxCalls := by
    intro hs
    have := (h3 hs).2.2
    omega
  refine ⟨hbound, ?_⟩
  intro now outcome
  obtain ⟨st, fc, lft, hoc⟩ := s
  cases st with
  | closed =>
      cases outcome <;> simp [call, callAdmitted]
  | opened =>
      have hg : ¬ (cfg.halfOpenMaxCalls ≤ 0) := by omega
      cases outcome <;> simp [call, callAdmitted, hg] <;>
        split_ifs <;> simp
  | halfOpen =>
      have hb : hoc < cfg.halfOpenMaxCalls := by
        have := hbound rfl
        dsimp only at this
        exact this
      have hg : ¬ (cfg.halfOpenMaxCalls ≤ hoc) := by omega
      cases outcome <;> simp [call, callAdmitted, hg]

/-- Witness for C10 at a concrete input: the initial state under the
default configuration; a failing call at time 0 is not rejected by the
half-open quota branch. -/
theorem halfOpen_quota_never_exceeded_witness :
    (call (⟨5, 60, 3⟩ : Config) initState 0
        (Except.error () : Except Unit Unit)).1
      ≠ CallResult.halfOpenExceeded :=
  (halfOpen_quota_never_exceeded (⟨5, 60, 3⟩ : Config) initState (by decide)
      Reachable.init).2 0 (Except.error ())

/-- A call in a non-OPEN state goes straight to the admitted path. -/
theorem call_not_open {E A : Type} (cfg : Config) (s : BreakerState) (now : ℚ)
    (outcome : Except E A) (hs : ¬ s.state = .opened) :
    call cfg s now outcome = callAdmitted cfg s now outcome := by
  simp [call, hs]

/-- An admitted successful trial in HALF_OPEN below the quota: the
counter advances, and the breaker closes to the pristine state exactly
when it reaches the quota. -/
theorem callAdmitted_halfOpen_success (cfg : Config) (fc : ℕ) (lft : Option ℚ)
    (j : ℕ) (now : ℚ) (hj : j < cfg.halfOpenMaxCalls) :
    (callAdmitted cfg ⟨.halfOpen, fc, lft, j⟩ now
        (Except.ok () : Except Unit Unit)).2
      = if cfg.halfOpenMaxCalls ≤ j + 1 then initState
        else ⟨.halfOpen, fc, lft, j + 1⟩ := by
  simp only [callAdmitted, onSuccess]
  rw [if_neg (fun hcond => absurd hcond.2 (by omega))]
  dsimp only
  split_ifs <;> rfl

/-- In HALF_OPEN with `j` trial successes banked and `k` more to go
(`j + k = half_open_max_calls`, `k ≥ 1`), `k` consecutive successful
calls land exactly on the pristine CLOSED state. -/
theorem succCalls_halfOpen_closes (cfg : Config) (now : ℚ) (fc : ℕ) (lft : Option ℚ) :
    ∀ (k j : ℕ), j + k = cfg.halfOpenMaxCalls → 1 ≤ k →
      succCalls cfg now k ⟨.halfOpen, fc, lft, j⟩ = initState := by
  intro k
  induction k with
  | zero => intro j _ hk; omega
  | succ n ih =>
      intro j hsum _
      have hj : j < cfg.halfOpenMaxCalls := by omega
      have hne : (⟨.halfOpen, fc, lft, j⟩ : BreakerState).state ≠ .opened := by
        simp
      rw [succCalls, call_not_open cfg _ now _ hne,
        callAdmitted_halfOpen_success cfg fc lft j now hj]
      rcases Nat.eq_zero_or_pos n with h0 | h0
      · subst h0
        rw [if_pos (by omega)]
        rfl
      · rw [if_neg (by omega)]
        exact ih (j + 1) (by omega) h0

/-- Exactly `failure_threshold` consecutive failures from the pristine state land
on OPEN with the failure count at the threshold. -/
theorem failCalls_opens (cfg : Config) (now : ℚ) (h1 : 1 ≤ cfg.failureThreshold) :
    failCalls cfg now cfg.failureThreshold initState
      = ⟨.opened, cfg.failureThreshold, some now, 0⟩ := by
  have hstart : failCalls cfg now (cfg.failureThreshold - 1) initState
      = ⟨.closed, cfg.failureThreshold - 1,
         if cfg.failureThreshold - 1 = 0 then none else some now, 0⟩ := by
    have := failCalls_closed cfg now (cfg.failureThreshold - 1) 0 none (by omega)
    simpa [initState] using this
  have hsplit : cfg.failureThreshold = (cfg.failureThreshold - 1) + 1 := by omega
  rw [hsplit, failCalls_succ_back, hstart,
    call_closed_fail_open cfg (cfg.failureThreshold - 1) _ now (by omega)]

/-- C6: the full lifecycle — CLOSED to OPEN via `failure_threshold`
consecutive failures at time `t0`, then (with the cooldown elapsed by
`t1`) through HALF_OPEN via `half_open_max_calls` consecutive successful
trial calls — ends in exactly the initial state: CLOSED with
`failure_count = 0`, `half_open_calls = 0` and no recorded failure
time. -/
theorem round_trip_restores_initial (cfg : Config) (t0 t1 : ℚ)
    (h1 : 1 ≤ cfg.failureThreshold) (hm : 1 ≤ cfg.halfOpenMaxCalls)
    (ht : cfg.timeout ≤ t1 - t0) :
    succCalls cfg t1 cfg.halfOpenMaxCalls
        (failCalls cfg t0 cfg.failureThreshold initState)
      = initState := by
  rw [failCalls_opens cfg t0 h1]
  have htrue : shouldAttemptReset cfg
      ⟨.opened, cfg.failureThreshold, some t0, 0⟩ t1 = true := by
    simp [shouldAttemptReset]
    exact ht
  have hcall : (call cfg ⟨.opened, cfg.failureThreshold, some t0, 0⟩ t1
        (Except.ok () : Except Unit Unit)).2
      = if cfg.halfOpenMaxCalls ≤ 1
        then initState
        else ⟨.halfOpen, cfg.failureThreshold, some t0, 1⟩ := by
    have hstep : call cfg ⟨.opened, cfg.failureThreshold, some t0, 0⟩ t1
          (Except.ok () : Except Unit Unit)
        = callAdmitted cfg ⟨.halfOpen, cfg.failureThreshold, some t0, 0⟩ t1
          (Except.ok ()) := by
      simp [call, htrue]
    rw [hstep, callAdmitted_halfOpen_success cfg _ _ 0 t1 (by omega)]
  have hsplit : cfg.halfOpenMaxCalls = (cfg.halfOpenMaxCalls - 1) + 1 := by omega
  rw [hsplit, succCalls, hcall]
  rcases Nat.lt_or_ge 1 cfg.halfOpenMaxCalls with hgt | hle
  · rw [if_neg (by omega)]
    exact succCalls_halfOpen_closes cfg t1 cfg.failureThreshold (some t0)
      (cfg.halfOpenMaxCalls - 1) 1 (by omega) (by omega)
  · rw [if_pos (by omega)]
    have hz : cfg.halfOpenMaxCalls - 1 = 0 := by omega
    rw [hz]
    rfl

/-- Witness for C6 at a concrete input: threshold 2, timeout 10 s,
two half-open trials; failures at t = 0, successes at t = 10. -/
theorem round_trip_restores_initial_witness :
    succCalls (⟨2, 10, 2⟩ : Config) 10 2
        (failCalls (⟨2, 10, 2⟩ : Config) 0 2 initState)
      = initState :=
  round_trip_restores_initial (⟨2, 10, 2⟩ : Config) 0 10 (by decide) (by decide)
    (by with_unfolding_all decide)

end CircuitBreaker

/-! ## Claim theorems: health probes -/

namespace HealthProbes

/-- C7: over all four combinations of the two dependency checks,
`readiness` reports overall `"healthy"` exactly when both checks are
healthy (a logical AND with no partial credit), and its `checks` map
records each dependency's own status with `required := true`. -/
theorem readiness_logical_and :
    ∀ (es lm : Bool),
      ((readiness es lm).status = "healthy" ↔ es = true ∧ lm = true)
      ∧ (readiness es lm).probe = "readiness"
      ∧ (readiness es lm).checks
          = [("elasticsearch",
              { status := if es then "healthy" else "unhealthy", required := true }),
             ("lmstudio",
              { status := if lm then "healthy" else "unhealthy", required := true })] := by
  decide

/-- C8: the first `startup` whose Elasticsearch check succeeds sets the
`startup_complete` latch and reports healthy; with the latch set, every
later `startup` reports healthy without invoking the check (so the check
runs exactly once across two consecutive successful calls); and a
`startup` whose check fails leaves the latch unset and returns an
unhealthy report carrying the error message. -/
theorem startup_latch_semantics :
    (∀ (esb : EsBehavior), checkElasticsearch esb = true →
      startup esb ⟨false⟩
        = ({ status := "healthy", probe := "startup", error := none },
           ⟨true⟩, true))
    ∧ (∀ (esb : EsBehavior) (ps : ProbeState), ps.startupComplete = true →
      startup esb ps
        = ({ status := "healthy", probe := "startup", error := none }, ps, false))
    ∧ (∀ (esb esb2 : EsBehavior), checkElasticsearch esb = true →
      (startup esb ⟨false⟩).2.2 = true
      ∧ (startup esb2 (startup esb ⟨false⟩).2.1).2.2 = false)
    ∧ (∀ (esb : EsBehavior), checkElasticsearch esb = false →
      startup esb ⟨false⟩
        = ({ status := "unhealthy", probe := "startup",
             error := some "Elasticsearch not accessible" },
           ⟨false⟩, true)) := by
  have hok : ∀ (b : EsBehavior), checkElasticsearchRun b = .ok (checkElasticsearch b) := by
    intro b
    cases b <;> rfl
  have hs : ∀ (esb : EsBehavior) (ps : ProbeState),
      startup esb ps
        = if ps.startupComplete then
            ({ status := "healthy", probe := "startup", error := none }, ps, false)
          else if checkElasticsearch esb then
            ({ status := "healthy", probe := "startup", error := none },
             ⟨true⟩, true)
          else
            ({ status := "unhealthy", probe := "startup",
               error := some "Elasticsearch not accessible" },
             ps, true) := by
    intro esb ps
    obtain ⟨sc⟩ := ps
    cases sc
    · simp only [startup, startupRun, Bool.false_eq_true, if_false, bind, Except.bind, hok]
      cases hc : checkElasticsearch esb
      · simp
      · rfl
    · rfl
  refine ⟨?_, ?_, ?_, ?_⟩
  · intro esb h
    rw [hs]
    simp [h]
  · intro esb ps h
    rw [hs, if_pos h]
  · intro esb esb2 h
    constructor
    · rw [hs]
      simp [h]
    · rw [hs esb ⟨false⟩]
      simp only [h]
      rw [hs]
      simp
  · intro esb h
    rw [hs]
    simp [h]

/-- Witness for C8 at a concrete input: a green cluster succeeds and
latches; a second call with a raising client does not re-probe; a red
cluster fails and leaves the latch unset. -/
theorem startup_latch_semantics_witness :
    ((startup (.health "green") ⟨false⟩).2.2 = true
      ∧ (startup (.raises "down") (startup (.health "green") ⟨false⟩).2.1).2.2 = false)
    ∧ startup (.health "red") ⟨false⟩
        = ({ status := "unhealthy", probe := "startup",
             error := some "Elasticsearch not accessible" },
           ⟨false⟩, true) :=
  ⟨startup_latch_semantics.2.2.1 (.health "green") (.raises "down") (by decide),
   startup_latch_semantics.2.2.2 (.health "red") (by decide)⟩

/-- C9: no dependency behaviour — exception, timeout, non-200 response,
or a red cluster status — makes `liveness`, `readiness` or `startup`
raise: each probe run always returns `Except.ok`, and every
dependency-check failure is converted inside the check to an unhealthy
boolean. -/
theorem probes_never_raise :
    (∀ (esb : EsBehavior) (lmb : LmBehavior),
      readinessRun esb lmb
        = Except.ok (readiness (checkElasticsearch esb) (checkLmstudio lmb)))
    ∧ (∀ (esb : EsBehavior) (ps : ProbeState),
      startupRun esb ps = Except.ok (startup esb ps))
    ∧ livenessRun
        = Except.ok { status := "healthy", probe := "liveness", error := none }
    ∧ (∀ (m : String), checkElasticsearch (.raises m) = false)
    ∧ checkElasticsearch (.health "red") = false
    ∧ checkLmstudio .timeout = false
    ∧ (∀ (m : String), checkLmstudio (.raises m) = false)
    ∧ (∀ (c : ℕ), ¬ c = 200 → checkLmstudio (.responds c) = false) := by
  have hok : ∀ (b : EsBehavior), checkElasticsearchRun b = .ok (checkElasticsearch b) := by
    intro b
    cases b <;> rfl
  have hlm : ∀ (b : LmBehavior), checkLmstudioRun b = .ok (checkLmstudio b) := by
    intro b
    cases b <;> rfl
  refine ⟨?_, ?_, rfl, fun m => rfl, rfl, rfl, fun m => rfl, ?_⟩
  · intro esb lmb
    simp only [readinessRun, bind, Except.bind, hok, hlm]
    rfl
  · intro esb ps
    obtain ⟨sc⟩ := ps
    cases sc
    · simp only [startup, startupRun, Bool.false_eq_true, if_false, bind, Except.bind, hok]
      cases checkElasticsearch esb
      · simp
      · rfl
    · rfl
  · intro c hc
    simp [checkLmstudio, checkLmstudioRun, checkLmstudioBody, hc]

/-- Witness for C9 at a concrete input: a 503 response from the LM
endpoint is reported as unhealthy, not raised. -/
theorem probes_never_raise_witness :
    checkLmstudio (.responds 503) = false :=
  probes_never_raise.2.2.2.2.2.2.2 503 (by decide)

end HealthProbes

end ElasticRag
